import Mathlib

/-!
Verification of the contrast-evaluation core of the claude-color repository.

The embedding follows `src/lib/apca.ts` (threshold policy, rating tiers,
recommendation generation, and the `checkContrast` evaluator) and the
`check_contrast` tool registration of the stdio server entry point.
JavaScript numbers are modelled as exact rationals, with a separate `nan`
point whose comparisons are all false (IEEE-754 / JS semantics for the one
comparison the code performs); `Math.round` is modelled as
`fun q => Int.floor (q + 1/2)`, the ECMAScript round-half-toward-positive-
infinity rule. The external perceptual-contrast primitive `calcAPCA` is an
opaque dependency of the source and is passed to `checkContrast` as an
explicit function argument, as the specification's design notes direct.
-/

namespace ClaudeColor

/-- A JavaScript number as used by this code: either NaN or an exact
rational value. The only comparison the source performs on a possibly-NaN
number is `fontSize >= 24`, and in JS every comparison with NaN is false. -/
inductive JSNum where
  | nan : JSNum
  | val : ℚ → JSNum
deriving DecidableEq

/-- JS `x >= c` for a possibly-NaN `x`: false on NaN. -/
def JSNum.ge (x : JSNum) (c : ℚ) : Bool :=
  match x with
  | JSNum.nan => false
  | JSNum.val q => decide (c ≤ q)

/-- The `UseCase` union type of `apca.ts`. -/
inductive UseCase where
  | bodyText
  | largeText
  | uiComponent
  | nonText
  | placeholder
  | disabled
deriving DecidableEq

/-- The string each `UseCase` member denotes in the source (used when the
use case is interpolated into a recommendation message). -/
def UseCase.toStr : UseCase → String
  | UseCase.bodyText => "body-text"
  | UseCase.largeText => "large-text"
  | UseCase.uiComponent => "ui-component"
  | UseCase.nonText => "non-text"
  | UseCase.placeholder => "placeholder"
  | UseCase.disabled => "disabled"

/-- The `FontWeight` union type of `apca.ts`. -/
inductive FontWeight where
  | normal
  | bold
deriving DecidableEq

/-- The polarity field of a `ContrastResult`. -/
inductive Polarity where
  | darkOnLight
  | lightOnDark
deriving DecidableEq

/-- The rating field of a `ContrastResult`: AAA, AA, A or fail. -/
inductive Rating where
  | AAA
  | AA
  | A
  | fail
deriving DecidableEq

/-- The `ContrastResult` interface of `apca.ts`. `recommendation` is
`string | null` in the source, modelled as `Option String`. -/
structure ContrastResult where
  lc : ℚ
  lcAbsolute : ℚ
  passes : Bool
  minimumLc : ℕ
  polarity : Polarity
  recommendation : Option String
  rating : Rating
deriving DecidableEq

/-- The `USE_CASE_THRESHOLDS` record of `apca.ts`. -/
def USE_CASE_THRESHOLDS : UseCase → ℕ
  | UseCase.bodyText => 75
  | UseCase.largeText => 60
  | UseCase.uiComponent => 60
  | UseCase.nonText => 45
  | UseCase.placeholder => 45
  | UseCase.disabled => 45

/-- `getMinimumLc` from `apca.ts`: for any use case other than body-text
the static table value is returned directly; for body-text the threshold
adapts to font size and weight. -/
def getMinimumLc (useCase : UseCase) (fontSize : JSNum)
    (fontWeight : FontWeight) : ℕ :=
  match useCase with
  | UseCase.bodyText =>
    let isLarge : Bool := fontSize.ge 24
    let isBold : Bool := decide (fontWeight = FontWeight.bold)
    if isLarge || isBold then 60 else 75
  | u => USE_CASE_THRESHOLDS u

/-- `getRating` from `apca.ts`. -/
def getRating (lcAbsolute : ℚ) : Rating :=
  if 90 ≤ lcAbsolute then Rating.AAA
  else if 75 ≤ lcAbsolute then Rating.AA
  else if 60 ≤ lcAbsolute then Rating.A
  else Rating.fail

/-- Models JS `Number.prototype.toFixed(1)` for the nonnegative exact
rationals it is applied to here: round half up to one decimal and print
as integer part, a dot, and one digit. -/
def toFixed1 (q : ℚ) : String :=
  let n : ℤ := ⌊q * 10 + 1 / 2⌋
  toString (n / 10) ++ "." ++ toString (n % 10)

/-- Models JS `Number.prototype.toFixed(0)` for the nonnegative exact
rationals it is applied to here: round half up to an integer. -/
def toFixed0 (q : ℚ) : String :=
  toString ⌊q + 1 / 2⌋

/-- The message `getRecommendation` builds when the absolute Lc is below
15 (template literal of `apca.ts`, interpolations made explicit). -/
def tooLowMessage (lcAbsolute : ℚ) (minimumLc : ℕ) (useCase : UseCase) :
    String :=
  "Contrast is too low for any text use. Current Lc: " ++
    toFixed1 lcAbsolute ++ ", need at least " ++ toString minimumLc ++
    " for " ++ useCase.toStr ++ "."

/-- The message `getRecommendation` builds when the absolute Lc is in
[15, 45). -/
def decorativeMessage (deficit : ℚ) (useCase : UseCase) : String :=
  "Only suitable for decorative or non-essential elements. " ++
    "Increase contrast by ~" ++ toFixed0 deficit ++ " Lc points for " ++
    useCase.toStr ++ "."

/-- The message `getRecommendation` builds when the absolute Lc is at
least 45 but still below the required minimum. -/
def increaseMessage (deficit : ℚ) : String :=
  "Increase contrast by ~" ++ toFixed0 deficit ++
    " Lc points. Try darkening the text or lightening the background " ++
    "(or vice versa for dark mode)."

/-- `getRecommendation` from `apca.ts`: null when passing, otherwise a
message selected by the (unrounded) absolute Lc band. -/
def getRecommendation (passes : Bool) (lcAbsolute : ℚ) (minimumLc : ℕ)
    (useCase : UseCase) : Option String :=
  if passes then none
  else
    let deficit : ℚ := (minimumLc : ℚ) - lcAbsolute
    if lcAbsolute < 15 then
      some (tooLowMessage lcAbsolute minimumLc useCase)
    else if lcAbsolute < 45 then
      some (decorativeMessage deficit useCase)
    else
      some (increaseMessage deficit)

/-- JS `Math.round`: the number closest to the argument, ties toward
positive infinity; on exact rationals this is `⌊q + 1/2⌋`. -/
def jsRound (q : ℚ) : ℤ :=
  ⌊q + 1 / 2⌋

/-- `Math.round(x * 10) / 10`, the one-decimal rounding `checkContrast`
applies to the returned `lc` and `lcAbsolute` fields. -/
def round1 (q : ℚ) : ℚ :=
  (jsRound (q * 10) : ℚ) / 10

/-- The options object of `checkContrast`, with the source's defaults
(`fontSize = 16`, `fontWeight = 'normal'`, `useCase = 'body-text'`). -/
structure ContrastOptions where
  fontSize : JSNum := JSNum.val 16
  fontWeight : FontWeight := FontWeight.normal
  useCase : UseCase := UseCase.bodyText
deriving DecidableEq

/-- `checkContrast` from `apca.ts`. The external `calcAPCA` primitive is
passed in as a function from the two color strings to the signed Lc. -/
def checkContrast (calcAPCA : String → String → ℚ)
    (foreground background : String)
    (options : ContrastOptions) : ContrastResult :=
  let fontSize := options.fontSize
  let fontWeight := options.fontWeight
  let useCase := options.useCase
  let lc := calcAPCA foreground background
  let lcAbsolute := |lc|
  let polarity : Polarity :=
    if 0 ≤ lc then Polarity.darkOnLight else Polarity.lightOnDark
  let minimumLc := getMinimumLc useCase fontSize fontWeight
  let passes : Bool := decide ((minimumLc : ℚ) ≤ lcAbsolute)
  let rating := getRating lcAbsolute
  let recommendation := getRecommendation passes lcAbsolute minimumLc useCase
  { lc := round1 lc
    lcAbsolute := round1 lcAbsolute
    passes := passes
    minimumLc := minimumLc
    polarity := polarity
    recommendation := recommendation
    rating := rating }

/-- The argument object of the `check_contrast` tool (zod schema of the
server entry point), with its declared defaults. -/
structure CheckContrastArgs where
  foreground : String
  background : String
  fontSize : JSNum := JSNum.val 16
  fontWeight : FontWeight := FontWeight.normal
  useCase : UseCase := UseCase.bodyText
deriving DecidableEq

/-- The object the `check_contrast` tool handler serializes: a placeholder
with a status, a message, and the echoed input. The JSON-text layer
(`JSON.stringify`) is abstracted; the payload is modelled structurally. -/
structure PlaceholderPayload where
  status : String
  message : String
  input : CheckContrastArgs
deriving DecidableEq

/-- The `check_contrast` tool handler from the server entry point: it
does not invoke the contrast evaluator at all and returns a fixed
`not_implemented` placeholder echoing its input. -/
def checkContrastHandler (args : CheckContrastArgs) : PlaceholderPayload :=
  { status := "not_implemented"
    message := "APCA contrast checking will be implemented in issue #2"
    input := args }

/-- Numeric order of the rating tiers, used to state monotonicity of
`getRating` (fail < A < AA < AAA). -/
def ratingValue : Rating → ℕ
  | Rating.fail => 0
  | Rating.A => 1
  | Rating.AA => 2
  | Rating.AAA => 3

/-- A constant stand-in for the external contrast primitive, used to
evaluate the evaluator at concrete signed scores. -/
def scoreConst (q : ℚ) : String → String → ℚ :=
  fun _ _ => q

/-- An antisymmetric stand-in primitive for the swap properties: +70 in
one direction, -70 in the other. -/
def swapScore : String → String → ℚ :=
  fun a _ => if a = "a" then 70 else -70

/-- The lc field of a result is the one-decimal rounding of the raw
signed score. -/
lemma checkContrast_lc (s : String → String → ℚ) (fg bg : String)
    (o : ContrastOptions) :
    (checkContrast s fg bg o).lc = round1 (s fg bg) := rfl

/-- The lcAbsolute field of a result is the one-decimal rounding of the
absolute raw score. -/
lemma checkContrast_lcAbsolute (s : String → String → ℚ) (fg bg : String)
    (o : ContrastOptions) :
    (checkContrast s fg bg o).lcAbsolute = round1 |s fg bg| := rfl

/-- The passes field compares the unrounded absolute score against the
resolved minimum. -/
lemma checkContrast_passes (s : String → String → ℚ) (fg bg : String)
    (o : ContrastOptions) :
    (checkContrast s fg bg o).passes =
      decide ((getMinimumLc o.useCase o.fontSize o.fontWeight : ℚ) ≤
        |s fg bg|) := rfl

/-- The minimumLc field is the resolved threshold for the context. -/
lemma checkContrast_minimumLc (s : String → String → ℚ) (fg bg : String)
    (o : ContrastOptions) :
    (checkContrast s fg bg o).minimumLc =
      getMinimumLc o.useCase o.fontSize o.fontWeight := rfl

/-- The polarity field is decided by the sign of the raw score. -/
lemma checkContrast_polarity (s : String → String → ℚ) (fg bg : String)
    (o : ContrastOptions) :
    (checkContrast s fg bg o).polarity =
      if 0 ≤ s fg bg then Polarity.darkOnLight else Polarity.lightOnDark := rfl

/-- The rating field is computed from the unrounded absolute score. -/
lemma checkContrast_rating (s : String → String → ℚ) (fg bg : String)
    (o : ContrastOptions) :
    (checkContrast s fg bg o).rating = getRating |s fg bg| := rfl

/-- The recommendation field is produced by getRecommendation on the
unrounded absolute score. -/
lemma checkContrast_recommendation (s : String → String → ℚ)
    (fg bg : String) (o : ContrastOptions) :
    (checkContrast s fg bg o).recommendation =
      getRecommendation
        (decide ((getMinimumLc o.useCase o.fontSize o.fontWeight : ℚ) ≤
          |s fg bg|))
        |s fg bg| (getMinimumLc o.useCase o.fontSize o.fontWeight)
        o.useCase := rfl

/-- getRecommendation returns none exactly when the passes flag is true. -/
lemma getRecommendation_none_iff (p : Bool) (m : ℚ) (minLc : ℕ)
    (u : UseCase) :
    getRecommendation p m minLc u = none ↔ p = true := by
  cases p with
  | true => simp [getRecommendation]
  | false =>
    simp only [getRecommendation, Bool.false_eq_true, if_false, iff_false]
    split_ifs <;> simp

/-- On a failing evaluation, getRecommendation selects the message by
the absolute-Lc band. -/
lemma getRecommendation_false (m : ℚ) (minLc : ℕ) (u : UseCase) :
    getRecommendation false m minLc u =
      if m < 15 then some (tooLowMessage m minLc u)
      else if m < 45 then some (decorativeMessage ((minLc : ℚ) - m) u)
      else some (increaseMessage ((minLc : ℚ) - m)) := rfl

/-- One-decimal rounding preserves nonnegativity. -/
lemma round1_nonneg (q : ℚ) (h : 0 ≤ q) : 0 ≤ round1 q := by
  have h1 : (0 : ℤ) ≤ jsRound (q * 10) := by
    rw [jsRound]
    exact Int.le_floor.mpr (by push_cast; linarith)
  rw [round1]
  positivity

/-- JS Math.round commutes with negation except at exact half-integer
ties, where the round-half-up rule breaks the symmetry. -/
lemma jsRound_neg (y : ℚ) (h : (jsRound y : ℚ) ≠ y + 1 / 2) :
    jsRound (-y) = -(jsRound y) := by
  have hfl : ((⌊y + 1 / 2⌋ : ℤ) : ℚ) ≤ y + 1 / 2 := Int.floor_le _
  have h1 : ((⌊y + 1 / 2⌋ : ℤ) : ℚ) < y + 1 / 2 :=
    lt_of_le_of_ne hfl (by rwa [jsRound] at h)
  have h2 : y + 1 / 2 < ⌊y + 1 / 2⌋ + 1 := Int.lt_floor_add_one _
  rw [jsRound, jsRound, Int.floor_eq_iff]
  constructor
  · push_cast; linarith
  · push_cast; linarith

/-- One-decimal rounding commutes with negation away from ties. -/
lemma round1_neg (q : ℚ) (h : (jsRound (q * 10) : ℚ) ≠ q * 10 + 1 / 2) :
    round1 (-q) = -(round1 q) := by
  rw [round1, round1, show -q * 10 = -(q * 10) by ring, jsRound_neg _ h]
  push_cast
  ring

/-- Claim C1: getMinimumLc returns the fixed table value for every
non-body-text use case regardless of font size and weight (large-text
60, ui-component 60, non-text 45, placeholder 45, disabled 45), and for
body-text returns 60 when the font size is at least 24 or the weight is
bold, and 75 otherwise. -/
theorem C1_resolveMinimum (fs : JSNum) (fw : FontWeight) :
    getMinimumLc UseCase.largeText fs fw = 60 ∧
    getMinimumLc UseCase.uiComponent fs fw = 60 ∧
    getMinimumLc UseCase.nonText fs fw = 45 ∧
    getMinimumLc UseCase.placeholder fs fw = 45 ∧
    getMinimumLc UseCase.disabled fs fw = 45 ∧
    (fs.ge 24 = true ∨ fw = FontWeight.bold →
      getMinimumLc UseCase.bodyText fs fw = 60) ∧
    (fs.ge 24 = false → fw = FontWeight.normal →
      getMinimumLc UseCase.bodyText fs fw = 75) := by
  refine ⟨rfl, rfl, rfl, rfl, rfl, ?_, ?_⟩
  · intro h
    rcases h with h | h
    · simp [getMinimumLc, h]
    · subst h; simp [getMinimumLc]
  · intro h1 h2
    subst h2
    simp [getMinimumLc, h1]

/-- Claim C1 witness: bold 16px body text resolves to 60. -/
theorem C1_witness :
    getMinimumLc UseCase.bodyText (JSNum.val 16) FontWeight.bold = 60 :=
  (C1_resolveMinimum (JSNum.val 16) FontWeight.bold).2.2.2.2.2.1 (Or.inr rfl)

/-- Claim C2 counterexample: at a raw score of 74.96 under default
options the evaluation fails (74.96 is below the 75 minimum) yet the
returned, one-decimal-rounded lcAbsolute field equals 75 and so is not
below the returned minimumLc: passes disagrees with the comparison of
the returned fields. -/
theorem C2_counterexample :
    (checkContrast (scoreConst (1874 / 25)) "#777777" "#ffffff" {}).passes
        = false ∧
    ((checkContrast (scoreConst (1874 / 25)) "#777777" "#ffffff"
        {}).minimumLc : ℚ) ≤
      (checkContrast (scoreConst (1874 / 25)) "#777777" "#ffffff"
        {}).lcAbsolute := by
  constructor
  · rw [checkContrast_passes]
    rw [show getMinimumLc ({} : ContrastOptions).useCase
          ({} : ContrastOptions).fontSize
          ({} : ContrastOptions).fontWeight = 75 from rfl]
    simp only [scoreConst, decide_eq_false_iff_not]
    rw [abs_of_nonneg (by norm_num : (0:ℚ) ≤ 1874 / 25)]
    norm_num
  · rw [checkContrast_minimumLc, checkContrast_lcAbsolute]
    rw [show getMinimumLc ({} : ContrastOptions).useCase
          ({} : ContrastOptions).fontSize
          ({} : ContrastOptions).fontWeight = 75 from rfl]
    simp only [scoreConst]
    rw [abs_of_nonneg (by norm_num : (0:ℚ) ≤ 1874 / 25)]
    norm_num [round1, jsRound]

/-- Claim C2 amended: passes is decided by comparing the unrounded
absolute score against the returned minimum, not the rounded lcAbsolute
field. -/
theorem C2_amended_passes (s : String → String → ℚ) (fg bg : String)
    (o : ContrastOptions) :
    (checkContrast s fg bg o).passes = true ↔
      ((checkContrast s fg bg o).minimumLc : ℚ) ≤ |s fg bg| := by
  rw [checkContrast_passes, checkContrast_minimumLc, decide_eq_true_eq]

/-- Claim C3 counterexample: at a raw score of -0.05 the returned
lcAbsolute field is 0.1 while the returned lc field rounds to 0 (JS
Math.round sends -0.5 to 0), so lcAbsolute differs from the absolute
value of lc. -/
theorem C3_counterexample :
    (checkContrast (scoreConst (-(1 / 20))) "#888888" "#8a8a8a"
        {}).lcAbsolute ≠
      |(checkContrast (scoreConst (-(1 / 20))) "#888888" "#8a8a8a"
        {}).lc| := by
  rw [checkContrast_lcAbsolute, checkContrast_lc]
  simp only [scoreConst]
  rw [abs_of_nonpos (by norm_num : (-(1 / 20) : ℚ) ≤ 0)]
  rw [show round1 (-(1 / 20) : ℚ) = 0 by norm_num [round1, jsRound]]
  rw [show round1 (-(-(1 / 20)) : ℚ) = 1 / 10 by norm_num [round1, jsRound]]
  norm_num

/-- Claim C3 amended: the returned lcAbsolute is the one-decimal
rounding of the absolute raw score, and it equals the absolute value of
the returned lc field whenever the raw score is nonnegative or ten
times the raw score is not an exact half-integer (at such negative
ties JS Math.round rounds the two fields in different directions). -/
theorem C3_amended_lcAbsolute (s : String → String → ℚ) (fg bg : String)
    (o : ContrastOptions)
    (h : 0 ≤ s fg bg ∨
      (jsRound (s fg bg * 10) : ℚ) ≠ s fg bg * 10 + 1 / 2) :
    (checkContrast s fg bg o).lcAbsolute = round1 |s fg bg| ∧
    (checkContrast s fg bg o).lcAbsolute =
      |(checkContrast s fg bg o).lc| := by
  refine ⟨checkContrast_lcAbsolute s fg bg o, ?_⟩
  rw [checkContrast_lcAbsolute, checkContrast_lc]
  rcases le_or_lt 0 (s fg bg) with hx | hx
  · rw [abs_of_nonneg hx, abs_of_nonneg (round1_nonneg _ hx)]
  · have hden : (jsRound (s fg bg * 10) : ℚ) ≠ s fg bg * 10 + 1 / 2 := by
      rcases h with h | h
      · exact absurd h (not_le.mpr hx)
      · exact h
    have hneg := round1_neg (s fg bg) hden
    have hnn : (0 : ℚ) ≤ round1 (-(s fg bg)) :=
      round1_nonneg _ (by linarith)
    rw [abs_of_neg hx]
    rw [show round1 (s fg bg) = -(round1 (-(s fg bg))) by rw [hneg]; ring]
    rw [abs_neg, abs_of_nonneg hnn]

/-- Claim C3 witness: at the tie-free raw score -1.5 the hypothesis
holds and the returned lcAbsolute equals the absolute returned lc. -/
theorem C3_witness :
    (0 ≤ scoreConst (-(3 / 2)) "x" "y" ∨
      (jsRound (scoreConst (-(3 / 2)) "x" "y" * 10) : ℚ) ≠
        scoreConst (-(3 / 2)) "x" "y" * 10 + 1 / 2) ∧
    (checkContrast (scoreConst (-(3 / 2))) "x" "y" {}).lcAbsolute =
      |(checkContrast (scoreConst (-(3 / 2))) "x" "y" {}).lc| := by
  have hh : 0 ≤ scoreConst (-(3 / 2)) "x" "y" ∨
      (jsRound (scoreConst (-(3 / 2)) "x" "y" * 10) : ℚ) ≠
        scoreConst (-(3 / 2)) "x" "y" * 10 + 1 / 2 := by
    right
    simp only [scoreConst]
    norm_num [jsRound]
  exact ⟨hh, (C3_amended_lcAbsolute (scoreConst (-(3 / 2))) "x" "y" {} hh).2⟩

/-- Claim C4: the rating is AAA from 90 up, AA on [75, 90), A on
[60, 75) and fail below 60, and it is monotonically non-decreasing in
the magnitude; getRating takes the magnitude as its only argument, so
it is independent of the use case and the resolved minimum. -/
theorem C4_rating (m : ℚ) :
    (90 ≤ m → getRating m = Rating.AAA) ∧
    (75 ≤ m → m < 90 → getRating m = Rating.AA) ∧
    (60 ≤ m → m < 75 → getRating m = Rating.A) ∧
    (m < 60 → getRating m = Rating.fail) ∧
    (∀ m2, m ≤ m2 → ratingValue (getRating m) ≤ ratingValue (getRating m2)) := by
  refine ⟨?_, ?_, ?_, ?_, ?_⟩
  · intro h; simp [getRating, h]
  · intro h1 h2; rw [getRating, if_neg (by linarith), if_pos h1]
  · intro h1 h2
    rw [getRating, if_neg (by linarith), if_neg (by linarith), if_pos h1]
  · intro h
    rw [getRating, if_neg (by linarith), if_neg (by linarith),
      if_neg (by linarith)]
  · intro m2 h
    unfold getRating
    split_ifs <;> simp [ratingValue] <;> linarith

/-- Claim C4 witness: a magnitude of 92 rates AAA. -/
theorem C4_witness : getRating 92 = Rating.AAA :=
  (C4_rating 92).1 (by norm_num)

/-- Claim C5: the recommendation is absent exactly when the pair passes
its threshold, for every score, color pair and context. -/
theorem C5_recommendation_absent_iff_passes (s : String → String → ℚ)
    (fg bg : String) (o : ContrastOptions) :
    (checkContrast s fg bg o).recommendation = none ↔
      (checkContrast s fg bg o).passes = true := by
  rw [checkContrast_recommendation, checkContrast_passes]
  exact getRecommendation_none_iff _ _ _ _

/-- Claim C6: on a failing evaluation the recommendation message is
selected by the unrounded magnitude band: below 15 the too-low message
stating the magnitude and the required minimum; on [15, 45) the
decorative-only message stating the rounded deficit; at 45 and above
the generic increase-contrast message with the rounded deficit. -/
theorem C6_recommendation_bands (s : String → String → ℚ) (fg bg : String)
    (o : ContrastOptions)
    (hfail : (checkContrast s fg bg o).passes = false) :
    (|s fg bg| < 15 →
      (checkContrast s fg bg o).recommendation =
        some (tooLowMessage |s fg bg|
          (getMinimumLc o.useCase o.fontSize o.fontWeight) o.useCase)) ∧
    (15 ≤ |s fg bg| → |s fg bg| < 45 →
      (checkContrast s fg bg o).recommendation =
        some (decorativeMessage
          ((getMinimumLc o.useCase o.fontSize o.fontWeight : ℚ) - |s fg bg|)
          o.useCase)) ∧
    (45 ≤ |s fg bg| →
      (checkContrast s fg bg o).recommendation =
        some (increaseMessage
          ((getMinimumLc o.useCase o.fontSize o.fontWeight : ℚ) -
            |s fg bg|))) := by
  rw [checkContrast_passes] at hfail
  rw [checkContrast_recommendation, hfail, getRecommendation_false]
  refine ⟨?_, ?_, ?_⟩
  · intro h
    rw [if_pos h]
  · intro h1 h2
    rw [if_neg (not_lt.mpr h1), if_pos h2]
  · intro h
    rw [if_neg (by linarith), if_neg (by linarith)]

/-- Claim C6 witness: a raw score of 50 under default options fails the
75 minimum with magnitude at least 45, so the recommendation is the
generic increase-contrast message with deficit 25. -/
theorem C6_witness :
    (checkContrast (scoreConst 50) "#777777" "#ffffff" {}).recommendation =
      some (increaseMessage 25) := by
  have hfail :
      (checkContrast (scoreConst 50) "#777777" "#ffffff" {}).passes =
        false := by
    rw [checkContrast_passes]
    rw [show getMinimumLc ({} : ContrastOptions).useCase
          ({} : ContrastOptions).fontSize
          ({} : ContrastOptions).fontWeight = 75 from rfl]
    simp only [scoreConst, decide_eq_false_iff_not]
    rw [abs_of_nonneg (by norm_num : (0:ℚ) ≤ 50)]
    norm_num
  have h := (C6_recommendation_bands (scoreConst 50) "#777777" "#ffffff"
      {} hfail).2.2
    (by simp only [scoreConst]
        rw [abs_of_nonneg (by norm_num : (0:ℚ) ≤ 50)]
        norm_num)
  rw [h]
  simp only [scoreConst]
  rw [abs_of_nonneg (by norm_num : (0:ℚ) ≤ 50)]
  rw [show getMinimumLc UseCase.bodyText (JSNum.val 16) FontWeight.normal = 75
    from rfl]
  norm_num

/-- Claim C7: polarity is dark-on-light when the raw signed score is
nonnegative and light-on-dark when it is negative; in particular a
score of exactly zero is classified dark-on-light. -/
theorem C7_polarity (s : String → String → ℚ) (fg bg : String)
    (o : ContrastOptions) :
    (0 ≤ s fg bg →
      (checkContrast s fg bg o).polarity = Polarity.darkOnLight) ∧
    (s fg bg < 0 →
      (checkContrast s fg bg o).polarity = Polarity.lightOnDark) ∧
    (s fg bg = 0 →
      (checkContrast s fg bg o).polarity = Polarity.darkOnLight) := by
  refine ⟨?_, ?_, ?_⟩
  · intro h; rw [checkContrast_polarity, if_pos h]
  · intro h; rw [checkContrast_polarity, if_neg (not_le.mpr h)]
  · intro h; rw [checkContrast_polarity, if_pos (le_of_eq h.symm)]

/-- Claim C7 witness: a zero score yields dark-on-light. -/
theorem C7_witness :
    (checkContrast (scoreConst 0) "#808080" "#808080" {}).polarity =
      Polarity.darkOnLight :=
  (C7_polarity (scoreConst 0) "#808080" "#808080" {}).2.2 rfl

/-- Claim C8 counterexample: with a primitive that returns exactly zero
for a near-identical pair (antisymmetry holds trivially), evaluating
with the colors swapped leaves the polarity unchanged (both directions
give dark-on-light), contradicting the claim that swapping always
flips polarity. -/
theorem C8_counterexample :
    scoreConst 0 "#888889" "#888888" = -(scoreConst 0 "#888888" "#888889") ∧
    (checkContrast (scoreConst 0) "#888889" "#888888" {}).polarity =
      (checkContrast (scoreConst 0) "#888888" "#888889" {}).polarity := by
  constructor
  · simp [scoreConst]
  · rfl

/-- Claim C8 amended: when the external primitive is antisymmetric on
the pair, swapping foreground and background leaves lcAbsolute, passes,
rating and minimumLc unchanged; polarity flips whenever the raw score
is nonzero; and the returned lc field is negated whenever ten times the
raw score is not an exact half-integer. -/
theorem C8_amended_swap (s : String → String → ℚ) (fg bg : String)
    (o : ContrastOptions) (hAnti : s bg fg = -(s fg bg)) :
    (checkContrast s bg fg o).lcAbsolute =
      (checkContrast s fg bg o).lcAbsolute ∧
    (checkContrast s bg fg o).passes = (checkContrast s fg bg o).passes ∧
    (checkContrast s bg fg o).rating = (checkContrast s fg bg o).rating ∧
    (checkContrast s bg fg o).minimumLc =
      (checkContrast s fg bg o).minimumLc ∧
    (s fg bg ≠ 0 →
      (checkContrast s bg fg o).polarity ≠
        (checkContrast s fg bg o).polarity) ∧
    ((jsRound (s fg bg * 10) : ℚ) ≠ s fg bg * 10 + 1 / 2 →
      (checkContrast s bg fg o).lc = -((checkContrast s fg bg o).lc)) := by
  refine ⟨?_, ?_, ?_, rfl, ?_, ?_⟩
  · rw [checkContrast_lcAbsolute, checkContrast_lcAbsolute, hAnti, abs_neg]
  · rw [checkContrast_passes, checkContrast_passes, hAnti, abs_neg]
  · rw [checkContrast_rating, checkContrast_rating, hAnti, abs_neg]
  · intro hx
    rw [checkContrast_polarity, checkContrast_polarity, hAnti]
    rcases lt_or_gt_of_ne hx with hlt | hgt
    · rw [if_pos (by linarith : (0:ℚ) ≤ -(s fg bg)),
        if_neg (not_le.mpr hlt)]
      simp
    · rw [if_neg (by simp; linarith : ¬ (0:ℚ) ≤ -(s fg bg)),
        if_pos (by linarith : (0:ℚ) ≤ s fg bg)]
      simp
  · intro h
    rw [checkContrast_lc, checkContrast_lc, hAnti, round1_neg _ h]

/-- Claim C8 witness: with the antisymmetric stand-in primitive at the
pair of colors named a and b, swapping negates the returned lc and
flips the polarity. -/
theorem C8_witness :
    swapScore "b" "a" = -(swapScore "a" "b") ∧
    (checkContrast swapScore "b" "a" {}).lc =
      -((checkContrast swapScore "a" "b" {}).lc) ∧
    (checkContrast swapScore "b" "a" {}).polarity ≠
      (checkContrast swapScore "a" "b" {}).polarity := by
  have hAnti : swapScore "b" "a" = -(swapScore "a" "b") := by
    simp only [swapScore]
    rw [if_neg (by decide : ¬ ("b" : String) = "a")]
    simp
  have h := C8_amended_swap swapScore "a" "b" {} hAnti
  refine ⟨hAnti, h.2.2.2.2.2 ?_, h.2.2.2.2.1 ?_⟩
  · norm_num [swapScore, jsRound]
  · norm_num [swapScore]

/-- Claim C9: the check_contrast tool handler never invokes the
contrast evaluator; at the failing input of black on white it returns
the fixed not-implemented placeholder echoing its input, not a
serialization of a ContrastResult. -/
theorem C9_handler_not_implemented :
    checkContrastHandler { foreground := "#000000", background := "#ffffff" } =
      { status := "not_implemented"
        message := "APCA contrast checking will be implemented in issue #2"
        input := { foreground := "#000000", background := "#ffffff" } } := rfl

/-- Claim C10: getMinimumLc is total by construction and always returns
one of 45, 60 or 75, hence a strictly positive threshold, and a NaN
font size behaves exactly like a small (16px) font size. -/
theorem C10_getMinimumLc_total :
    (∀ u fs fw,
      (getMinimumLc u fs fw = 45 ∨ getMinimumLc u fs fw = 60 ∨
        getMinimumLc u fs fw = 75) ∧
      0 < getMinimumLc u fs fw) ∧
    (∀ u fw, getMinimumLc u JSNum.nan fw = getMinimumLc u (JSNum.val 16) fw) := by
  constructor
  · intro u fs fw
    cases u with
    | bodyText =>
      rw [show getMinimumLc UseCase.bodyText fs fw =
            if fs.ge 24 || decide (fw = FontWeight.bold) then 60 else 75
          from rfl]
      split_ifs <;> norm_num
    | largeText => norm_num [getMinimumLc, USE_CASE_THRESHOLDS]
    | uiComponent => norm_num [getMinimumLc, USE_CASE_THRESHOLDS]
    | nonText => norm_num [getMinimumLc, USE_CASE_THRESHOLDS]
    | placeholder => norm_num [getMinimumLc, USE_CASE_THRESHOLDS]
    | disabled => norm_num [getMinimumLc, USE_CASE_THRESHOLDS]
  · intro u fw
    cases u <;> rfl

end ClaudeColor
